import Mathlib

/-!
Verification of the prompter-vscode LLM request/response normalization layer.

The definitions below are a shallow embedding of the TypeScript sources:
  - src/llm/llmProvider.ts   (UniversalLLMProvider)
  - src/llm/llmSchema.ts     (ThirdPartyLanguageModel, createJsonTranslator,
                              ChatResponseFormatter)
  - src/llm/run.ts           (executeCellPrompt)
  - the general language model / OrgConfig module (createGeneralLanguageModel)

JavaScript runtime values are modelled by `JsVal` (JSON values plus
`undefined`); JS numbers are modelled as rationals. Machine-level float
rounding is not exercised by any claim. Thrown JS exceptions are modelled
by `Except String`.
-/

/-- JavaScript runtime values as seen by this layer: JSON values plus
`undefined`. Numbers are modelled as rationals. -/
inductive JsVal where
  | undefined
  | null
  | bool (b : Bool)
  | num (q : Rat)
  | str (s : String)
  | arr (elems : List JsVal)
  | obj (fields : List (String × JsVal))

/-- JS truthiness of a value (`undefined`, `null`, `false`, `0` and `""` are
falsy; objects and arrays are truthy). -/
def JsVal.truthy : JsVal → Bool
  | .undefined => false
  | .null => false
  | .bool b => b
  | .num q => q != 0
  | .str s => s != ""
  | .arr _ => true
  | .obj _ => true

/-- JS property access `v.k`: throws a TypeError on `undefined`/`null`,
returns the field (or `undefined`) on objects, and `undefined` on other
primitives. -/
def jsGet : JsVal → String → Except String JsVal
  | .undefined, k => .error ("TypeError: Cannot read properties of undefined (reading " ++ k ++ ")")
  | .null, k => .error ("TypeError: Cannot read properties of null (reading " ++ k ++ ")")
  | .obj fs, k => .ok ((fs.lookup k).getD .undefined)
  | _, _ => .ok .undefined

/-- JS index access `v[i]`: throws a TypeError on `undefined`/`null`,
returns the element (or `undefined`) on arrays. -/
def jsIndex : JsVal → Nat → Except String JsVal
  | .undefined, _ => .error "TypeError: Cannot read properties of undefined (reading index)"
  | .null, _ => .error "TypeError: Cannot read properties of null (reading index)"
  | .arr xs, i => .ok (xs.getD i .undefined)
  | .obj fs, i => .ok ((fs.lookup (toString i)).getD .undefined)
  | _, _ => .ok .undefined

/-- JS optional-chaining access `v?.k`: yields `undefined` (instead of
throwing) when `v` is nullish. -/
def jsOptGet : JsVal → String → JsVal
  | .obj fs, k => (fs.lookup k).getD .undefined
  | _, _ => .undefined

/-- The JS `||` operator on values. -/
def jsOr (a b : JsVal) : JsVal := if a.truthy then a else b

/-- The JS `||` operator specialised to an optional number configuration
value against a numeric default (`undefined` and `0` both select the
default). -/
def jsOrRat (v : Option Rat) (d : Rat) : Rat :=
  match v with
  | none => d
  | some x => if x = 0 then d else x

/-- The JS `||` operator specialised to an optional string configuration
value against a string default (`undefined` and `""` both select the
default). -/
def jsOrStr (v : Option String) (d : String) : String :=
  match v with
  | none => d
  | some x => if x = "" then d else x

/-- The JS `||` operator for an optional string against an optional
fallback (used for `config.get(...) || orgConfig.endpoint` where the
fallback itself may be `undefined`). -/
def jsOrOptStr (v : Option String) (fb : Option String) : Option String :=
  match v with
  | none => fb
  | some x => if x = "" then fb else some x

/-- Message roles (llmProvider.ts `Message`). -/
inductive Role where
  | system
  | user
  | assistant
deriving DecidableEq

/-- The wire name of a role. -/
def Role.toStr : Role → String
  | .system => "system"
  | .user => "user"
  | .assistant => "assistant"

/-- A role-tagged chat message (llmProvider.ts `Message`). -/
structure Message where
  role : Role
  content : String
deriving DecidableEq

/-- The supported provider identifiers (llmProvider.ts `LLMProvider` enum). -/
inductive LLMProvider where
  | openai
  | deepseek
  | qwen
  | anthropic
  | gemini
  | mistral
deriving DecidableEq

/-- Configuration for LLM API calls (llmProvider.ts `LLMConfig`); optional
fields model TS optional properties. -/
structure LLMConfig where
  apiKey : String
  apiEndpoint : Option String := none
  temperature : Option Rat := none
  maxTokens : Option Rat := none
  topP : Option Rat := none

/-- The private state of a `UniversalLLMProvider` instance after its
constructor ran. -/
structure UniversalLLMProviderState where
  provider : LLMProvider
  model : String
  apiKey : String
  apiEndpoint : Option String
  temperature : Rat
  maxTokens : Rat
  topP : Rat

/-- The `UniversalLLMProvider` constructor: spreads `config` over the
defaults `temperature: 0.7, maxTokens: 1000, topP: 1`, so a field present
in `config` (even an explicit `0`) overrides the default, while an absent
field keeps it. -/
def mkUniversalLLMProvider (provider : LLMProvider) (model : String) (config : LLMConfig) :
    UniversalLLMProviderState :=
  { provider := provider
    model := model
    apiKey := config.apiKey
    apiEndpoint := config.apiEndpoint
    temperature := config.temperature.getD 0.7
    maxTokens := config.maxTokens.getD 1000
    topP := config.topP.getD 1 }

/-- Serialization of one message into the request payload (role and content
passed through unchanged). -/
def msgToJs (m : Message) : JsVal :=
  .obj [("role", .str m.role.toStr), ("content", .str m.content)]

/-- Gemini role remap inside `formatRequestPayload`:
`msg.role === 'assistant' ? 'model' : msg.role`. -/
def geminiRoleName (r : Role) : String :=
  if r = .assistant then "model" else r.toStr

/-- Gemini per-message remap inside `formatRequestPayload`: the role is
renamed and the content is wrapped as `parts: [ ... text ... ]`. -/
def geminiMapMsg (m : Message) : JsVal :=
  .obj [("role", .str (geminiRoleName m.role)),
        ("parts", .arr [.obj [("text", .str m.content)]])]

/-- The `contents` array of the Gemini request payload. -/
def geminiContents (messages : List Message) : List JsVal :=
  messages.map geminiMapMsg

/-- `UniversalLLMProvider.formatRequestPayload`: one branch per provider,
building the provider-specific JSON request body. The TS `default` branch
(throwing `Unsupported provider`) is unreachable for values of the closed
enum and therefore has no counterpart here. -/
def formatRequestPayload (st : UniversalLLMProviderState) (messages : List Message) : JsVal :=
  match st.provider with
  | .openai | .deepseek | .mistral =>
      .obj [("model", .str st.model),
            ("messages", .arr (messages.map msgToJs)),
            ("temperature", .num st.temperature),
            ("max_tokens", .num st.maxTokens),
            ("top_p", .num st.topP)]
  | .qwen =>
      .obj [("model", .str st.model),
            ("input", .obj [("messages", .arr (messages.map msgToJs))]),
            ("parameters", .obj [("temperature", .num st.temperature),
                                 ("max_tokens", .num st.maxTokens),
                                 ("top_p", .num st.topP)])]
  | .anthropic =>
      .obj [("model", .str st.model),
            ("messages", .arr (messages.map msgToJs)),
            ("max_tokens", .num st.maxTokens),
            ("temperature", .num st.temperature),
            ("top_p", .num st.topP)]
  | .gemini =>
      .obj [("contents", .arr (geminiContents messages)),
            ("generationConfig", .obj [("temperature", .num st.temperature),
                                       ("topP", .num st.topP),
                                       ("maxOutputTokens", .num st.maxTokens)])]

/-- Modelled from the spec: the inverse of Gemini's role renaming
(`model` maps back to `assistant`). -/
def roleOfGeminiName : String → Option Role
  | "system" => some .system
  | "user" => some .user
  | "model" => some .assistant
  | _ => none

/-- Modelled from the spec: the inverse of the Gemini per-message remap,
unwrapping `parts: [ ... text ... ]` and undoing the role renaming. -/
def geminiUnmapMsg : JsVal → Option Message
  | .obj [("role", .str rn), ("parts", .arr [.obj [("text", .str t)]])] =>
      (roleOfGeminiName rn).map (fun r => { role := r, content := t })
  | _ => none

/-- JS optional index `v?.[i]` used to read back text out of a Gemini
contents entry. -/
def jsOptIndex : JsVal → Nat → JsVal
  | .arr xs, i => xs.getD i .undefined
  | _, _ => .undefined

/-- The text of one Gemini contents entry, read along the path
`parts[0].text`. -/
def geminiTextOf (v : JsVal) : JsVal :=
  jsOptGet (jsOptIndex (jsOptGet v "parts") 0) "text"

/-- An HTTP response as observed by the transport layer: a status code, a
status text and an already-decoded JSON body. `fetch` never rejects in the
scenarios modelled here; connection-level failures are outside every claim
about status-driven behavior. -/
structure HttpResponse where
  status : Nat
  statusText : String
  body : JsVal

/-- The WHATWG `response.ok` flag: status in the inclusive range 200-299. -/
def HttpResponse.respOk (r : HttpResponse) : Bool :=
  200 ≤ r.status && r.status ≤ 299

/-- `isTransientHttpError` from the general-language-model module: the
retryable status set. -/
def isTransientHttpError (code : Nat) : Bool :=
  code == 429 || code == 500 || code == 502 || code == 503 || code == 504

/-- Outcome of one `complete` call of the general language model. `success`
and `err` are the two typechat `Result` constructors the source returns;
`thrown` models a JS exception escaping the loop (a TypeError while reading
`json.choices[0].message`); `pending` marks an exhausted response stream
(the real loop would still be awaiting its next fetch). -/
inductive TcResult where
  | success (content : String)
  | err (message : String)
  | thrown (message : String)
  | pending
deriving DecidableEq

/-- Whether a completion outcome is the typechat `error` result. -/
def TcResult.isErr : TcResult → Bool
  | .err _ => true
  | _ => false

/-- Depth-bounded rendering of a value, standing in for `JSON.stringify` in
the unexpected-format error message (string escaping approximated; no claim
inspects this text). -/
def jsonStringifyF : Nat → JsVal → String
  | 0, _ => ""
  | _ + 1, .undefined => "undefined"
  | _ + 1, .null => "null"
  | _ + 1, .bool true => "true"
  | _ + 1, .bool false => "false"
  | _ + 1, .num q => toString q
  | _ + 1, .str s => "\"" ++ s ++ "\""
  | n + 1, .arr xs => "[" ++ String.intercalate "," (xs.map (jsonStringifyF n)) ++ "]"
  | n + 1, .obj fs =>
      "\x7b" ++ String.intercalate ","
        (fs.map (fun f => "\"" ++ f.1 ++ "\":" ++ jsonStringifyF n f.2)) ++ "\x7d"

/-- Rendering of a value for error messages (see `jsonStringifyF`). -/
def jsonStringify (v : JsVal) : String := jsonStringifyF 1000 v

/-- The `response.ok` branch of the general model's `complete`: read
`json.choices[0].message.content`; a string content is a typechat success,
any other content value is the unexpected-format typechat error, and a
TypeError while traversing the path escapes as a thrown exception. -/
def generalModelHandleOk (body : JsVal) : TcResult :=
  match (do
      let c ← jsGet body "choices"
      let c0 ← jsIndex c 0
      let m ← jsGet c0 "message"
      jsGet m "content" : Except String JsVal) with
  | .error e => .thrown e
  | .ok (.str s) => .success s
  | .ok v => .err ("REST API unexpected response format: " ++ jsonStringify v)

/-- Observable trace of one `complete` call: its result, how many HTTP
requests were issued, and how many fixed-length pauses were slept. -/
structure CompleteTrace where
  result : TcResult
  fetches : Nat
  pauses : Nat
deriving DecidableEq

/-- The retry loop of `createGeneralLanguageModel.complete`, driven by the
stream of responses the endpoint will produce (one per fetch). `retryCount`
starts at 0; a transient non-2xx status sleeps `retryPauseMs` and retries
until `retryCount >= retryMaxAttempts`; any other non-2xx status is a
terminal error immediately. -/
def generalModelCompleteLoop (retryMaxAttempts : Nat) :
    List HttpResponse → Nat → CompleteTrace
  | [], _ => { result := .pending, fetches := 0, pauses := 0 }
  | r :: rest, retryCount =>
      if r.respOk then
        { result := generalModelHandleOk r.body, fetches := 1, pauses := 0 }
      else if isTransientHttpError r.status = false ∨ retryMaxAttempts ≤ retryCount then
        { result := .err ("REST API error " ++ toString r.status ++ ": " ++ r.statusText)
          fetches := 1, pauses := 0 }
      else
        let t := generalModelCompleteLoop retryMaxAttempts rest (retryCount + 1)
        { result := t.result, fetches := t.fetches + 1, pauses := t.pauses + 1 }

/-- Default retry attempt limit (`model.retryMaxAttempts ?? 3`). -/
def retryMaxAttemptsDefault : Nat := 3

/-- Default pause between retries in milliseconds
(`model.retryPauseMs ?? 1000`). -/
def retryPauseMsDefault : Nat := 1000

/-- One `complete` call of the general language model with the default
retry configuration. -/
def generalModelComplete (responses : List HttpResponse) : CompleteTrace :=
  generalModelCompleteLoop retryMaxAttemptsDefault responses 0

/-- Unfolding equation of the retry loop on a non-empty stream. -/
theorem generalModelCompleteLoop_cons (retryMaxAttempts : Nat) (r : HttpResponse)
    (rest : List HttpResponse) (rc : Nat) :
    generalModelCompleteLoop retryMaxAttempts (r :: rest) rc =
      if r.respOk then
        { result := generalModelHandleOk r.body, fetches := 1, pauses := 0 }
      else if isTransientHttpError r.status = false ∨ retryMaxAttempts ≤ rc then
        { result := .err ("REST API error " ++ toString r.status ++ ": " ++ r.statusText)
          fetches := 1, pauses := 0 }
      else
        { result := (generalModelCompleteLoop retryMaxAttempts rest (rc + 1)).result
          fetches := (generalModelCompleteLoop retryMaxAttempts rest (rc + 1)).fetches + 1
          pauses := (generalModelCompleteLoop retryMaxAttempts rest (rc + 1)).pauses + 1 } := rfl

/-- On a stream of persistently transient failing responses the loop issues
one request per stream element, pauses between consecutive requests, and
ends in the terminal typechat error once the retry budget is exhausted. -/
theorem generalModelCompleteLoop_all_transient (retryMaxAttempts : Nat) :
    ∀ (rs : List HttpResponse) (rc : Nat),
      (∀ r ∈ rs, isTransientHttpError r.status = true ∧ r.respOk = false) →
      rc + rs.length = retryMaxAttempts + 1 →
      rc ≤ retryMaxAttempts →
      (generalModelCompleteLoop retryMaxAttempts rs rc).result.isErr = true ∧
      (generalModelCompleteLoop retryMaxAttempts rs rc).fetches = rs.length ∧
      (generalModelCompleteLoop retryMaxAttempts rs rc).pauses = rs.length - 1 := by
  intro rs
  induction rs with
  | nil =>
      intro rc _ hlen hle
      simp only [List.length_nil, Nat.add_zero] at hlen
      omega
  | cons r rest ih =>
      intro rc hall hlen _
      have hr := hall r (List.mem_cons_self r rest)
      have hrest : ∀ x ∈ rest, isTransientHttpError x.status = true ∧ x.respOk = false := by
        intro x hx
        exact hall x (List.mem_cons_of_mem r hx)
      rw [generalModelCompleteLoop_cons]
      simp only [hr.2, Bool.false_eq_true, if_false]
      cases rest with
      | nil =>
          have hrc : rc = retryMaxAttempts := by
            simp only [List.length_cons, List.length_nil] at hlen
            omega
          simp [hrc, TcResult.isErr]
      | cons r2 rest2 =>
          have hguard : ¬ (isTransientHttpError r.status = false ∨ retryMaxAttempts ≤ rc) := by
            simp only [List.length_cons] at hlen
            push_neg
            refine ⟨by simp [hr.1], by omega⟩
          rw [if_neg hguard]
          have ihres := ih (rc + 1) hrest
            (by simp only [List.length_cons] at hlen ⊢; omega)
            (by simp only [List.length_cons] at hlen; omega)
          dsimp only
          refine ⟨ihres.1, ?_, ?_⟩
          · have h1 := ihres.2.1
            simp only [List.length_cons] at h1 ⊢
            omega
          · have h2 := ihres.2.2
            simp only [List.length_cons] at h2 ⊢
            omega

/-- C1: for every response stream whose statuses are all in the transient
set 429/500/502/503/504 and long enough to exhaust the budget, `complete`
issues `retryMaxAttempts` retries after the first attempt (so
`retryMaxAttempts + 1` requests) with one fixed pause between consecutive
attempts, and ends in a terminal error exactly then; for any other non-2xx
first status it ends in a terminal error immediately, with zero retries
and zero pauses. The defaults are 3 attempts and 1000 ms. -/
theorem claim_C1_retry_policy (retryMaxAttempts : Nat) (rs : List HttpResponse)
    (hall : ∀ r ∈ rs, isTransientHttpError r.status = true ∧ r.respOk = false)
    (hlen : rs.length = retryMaxAttempts + 1) :
    ((generalModelCompleteLoop retryMaxAttempts rs 0).result.isErr = true ∧
     (generalModelCompleteLoop retryMaxAttempts rs 0).fetches = retryMaxAttempts + 1 ∧
     (generalModelCompleteLoop retryMaxAttempts rs 0).pauses = retryMaxAttempts) ∧
    (∀ (r : HttpResponse) (rest : List HttpResponse),
        isTransientHttpError r.status = false → r.respOk = false →
        generalModelCompleteLoop retryMaxAttempts (r :: rest) 0 =
          { result := .err ("REST API error " ++ toString r.status ++ ": " ++ r.statusText)
            fetches := 1, pauses := 0 }) ∧
    retryMaxAttemptsDefault = 3 ∧ retryPauseMsDefault = 1000 := by
  refine ⟨?_, ?_, rfl, rfl⟩
  · have h := generalModelCompleteLoop_all_transient retryMaxAttempts rs 0 hall
      (by omega) (by omega)
    rw [hlen] at h
    exact ⟨h.1, h.2.1, by omega⟩
  · intro r rest h1 h2
    rw [generalModelCompleteLoop_cons]
    simp [h1, h2]

/-- Stream of four persistently failing 503 responses used to instantiate
the retry-policy theorem. -/
def c1Stream : List HttpResponse :=
  [{ status := 503, statusText := "Service Unavailable", body := .null },
   { status := 503, statusText := "Service Unavailable", body := .null },
   { status := 503, statusText := "Service Unavailable", body := .null },
   { status := 503, statusText := "Service Unavailable", body := .null }]

/-- Witness for C1: with the default budget of 3 and a stream of four 503
responses, `complete` performs 4 requests and 3 pauses and ends in an
error; a 404 ends it immediately with one request. -/
theorem claim_C1_retry_policy_witness :
    ((generalModelCompleteLoop 3 c1Stream 0).result.isErr = true ∧
     (generalModelCompleteLoop 3 c1Stream 0).fetches = 4 ∧
     (generalModelCompleteLoop 3 c1Stream 0).pauses = 3) ∧
    generalModelCompleteLoop 3 [{ status := 404, statusText := "Not Found", body := .null }] 0 =
      { result := .err ("REST API error " ++ toString 404 ++ ": " ++ "Not Found")
        fetches := 1, pauses := 0 } := by
  have h := claim_C1_retry_policy 3 c1Stream (by decide) (by decide)
  exact ⟨h.1, h.2.1 { status := 404, statusText := "Not Found", body := .null } [] (by decide) (by decide)⟩

/-- C2: for every provider, model name, resolved generation parameters and
message list, `formatRequestPayload` produces exactly the documented
provider-specific field names: a flat object for OpenAI/Deepseek/Mistral
with messages passed through unchanged, the nested Qwen shape, the
Anthropic shape, and the Gemini shape with keys renamed to `topP` and
`maxOutputTokens`. -/
theorem claim_C2_request_formatter (model apiKey : String) (ep : Option String)
    (t mt tp : Rat) (messages : List Message) :
    (formatRequestPayload ⟨.openai, model, apiKey, ep, t, mt, tp⟩ messages =
      .obj [("model", .str model),
            ("messages", .arr (messages.map msgToJs)),
            ("temperature", .num t),
            ("max_tokens", .num mt),
            ("top_p", .num tp)]) ∧
    (formatRequestPayload ⟨.deepseek, model, apiKey, ep, t, mt, tp⟩ messages =
      .obj [("model", .str model),
            ("messages", .arr (messages.map msgToJs)),
            ("temperature", .num t),
            ("max_tokens", .num mt),
            ("top_p", .num tp)]) ∧
    (formatRequestPayload ⟨.mistral, model, apiKey, ep, t, mt, tp⟩ messages =
      .obj [("model", .str model),
            ("messages", .arr (messages.map msgToJs)),
            ("temperature", .num t),
            ("max_tokens", .num mt),
            ("top_p", .num tp)]) ∧
    (formatRequestPayload ⟨.qwen, model, apiKey, ep, t, mt, tp⟩ messages =
      .obj [("model", .str model),
            ("input", .obj [("messages", .arr (messages.map msgToJs))]),
            ("parameters", .obj [("temperature", .num t),
                                 ("max_tokens", .num mt),
                                 ("top_p", .num tp)])]) ∧
    (formatRequestPayload ⟨.anthropic, model, apiKey, ep, t, mt, tp⟩ messages =
      .obj [("model", .str model),
            ("messages", .arr (messages.map msgToJs)),
            ("max_tokens", .num mt),
            ("temperature", .num t),
            ("top_p", .num tp)]) ∧
    (formatRequestPayload ⟨.gemini, model, apiKey, ep, t, mt, tp⟩ messages =
      .obj [("contents", .arr (messages.map geminiMapMsg)),
            ("generationConfig", .obj [("temperature", .num t),
                                       ("topP", .num tp),
                                       ("maxOutputTokens", .num mt)])]) :=
  ⟨rfl, rfl, rfl, rfl, rfl, rfl⟩

/-- Reading the text back out of a remapped Gemini message recovers the
original content. -/
theorem geminiTextOf_geminiMapMsg (m : Message) :
    geminiTextOf (geminiMapMsg m) = .str m.content := rfl

/-- Un-remapping a remapped Gemini message recovers the original message,
roles included. -/
theorem geminiUnmapMsg_geminiMapMsg (m : Message) :
    geminiUnmapMsg (geminiMapMsg m) = some m := by
  cases m with
  | mk r c => cases r <;> rfl

/-- C8: the Gemini remap preserves the number and order of messages and the
exact text of every message, and composing it with the inverse role
renaming recovers the original list. -/
theorem claim_C8_gemini_roundtrip (messages : List Message) :
    (geminiContents messages).length = messages.length ∧
    (geminiContents messages).map geminiTextOf =
      messages.map (fun m => .str m.content) ∧
    (geminiContents messages).mapM geminiUnmapMsg = some messages := by
  refine ⟨by simp [geminiContents], ?_, ?_⟩
  · induction messages with
    | nil => rfl
    | cons m ms ih =>
        simp only [geminiContents, List.map_cons] at ih ⊢
        rw [geminiTextOf_geminiMapMsg, ih]
  · induction messages with
    | nil => rfl
    | cons m ms ih =>
        simp only [geminiContents, List.map_cons, List.mapM_cons,
          geminiUnmapMsg_geminiMapMsg] at ih ⊢
        rw [ih]
        rfl

/-- Whether a character is JSON whitespace. -/
def jsonWs (c : Char) : Bool :=
  c = ' ' || c = '\t' || c = '\n' || c = '\r'

/-- Skip leading JSON whitespace. -/
def skipWsL : List Char → List Char
  | [] => []
  | c :: cs => if jsonWs c then skipWsL cs else c :: cs

/-- Whether a character is a decimal digit. -/
def isDigitCh (c : Char) : Bool := '0' ≤ c && c ≤ '9'

/-- Accumulate a digit run into a natural number. -/
def digitsToNat : List Char → Nat → Nat
  | [], acc => acc
  | c :: cs, acc => digitsToNat cs (acc * 10 + (c.toNat - 48))

/-- Parse the body of a JSON string literal after its opening quote
(escape handling limited to the single-character escapes used by the
development). -/
def parseStringBody : List Char → Except String (List Char × List Char)
  | [] => .error "SyntaxError: Unterminated string in JSON"
  | c :: cs =>
      if c = '"' then .ok ([], cs)
      else if c = '\\' then
        match cs with
        | [] => .error "SyntaxError: Unterminated string in JSON"
        | e :: cs2 =>
            let d : Char := if e = 'n' then '\n' else if e = 't' then '\t'
              else if e = 'r' then '\r' else e
            match parseStringBody cs2 with
            | .ok (acc, rest) => .ok (d :: acc, rest)
            | .error m => .error m
      else
        match parseStringBody cs with
        | .ok (acc, rest) => .ok (c :: acc, rest)
        | .error m => .error m

/-- Parse a JSON number (integer or decimal fraction, no exponent; the
development only feeds plain decimals through this path). -/
def parseNumberL (l : List Char) : Except String (JsVal × List Char) :=
  let sgn : Bool × List Char := match l with
    | '-' :: r => (true, r)
    | _ => (false, l)
  let ds := sgn.2.takeWhile isDigitCh
  if ds.isEmpty then .error "SyntaxError: Unexpected token in JSON"
  else
    let rest1 := sgn.2.drop ds.length
    let ipart : Rat := (digitsToNat ds 0 : Nat)
    match rest1 with
    | '.' :: r2 =>
        let fs := r2.takeWhile isDigitCh
        if fs.isEmpty then .error "SyntaxError: Unexpected token in JSON"
        else
          let v : Rat := ipart + (digitsToNat fs 0 : Nat) / ((10 : Rat) ^ fs.length)
          .ok (.num (if sgn.1 then -v else v), r2.drop fs.length)
    | _ => .ok (.num (if sgn.1 then -ipart else ipart), rest1)

/-- Match a literal word at the head of the input. -/
def litMatches : List Char → List Char → Option (List Char)
  | [], l => some l
  | _ :: _, [] => none
  | w :: ws, c :: cs => if w = c then litMatches ws cs else none

mutual

/-- Fuel-bounded JSON value parse (a model of `JSON.parse`). -/
def parseValueF : Nat → List Char → Except String (JsVal × List Char)
  | 0, _ => .error "SyntaxError: JSON nesting too deep"
  | n + 1, l =>
      match skipWsL l with
      | [] => .error "SyntaxError: Unexpected end of JSON input"
      | c :: rest =>
          if c = '"' then
            match parseStringBody rest with
            | .ok (body, r2) => .ok (.str (String.mk body), r2)
            | .error m => .error m
          else if c = '[' then
            match skipWsL rest with
            | ']' :: r2 => .ok (.arr [], r2)
            | r2 => parseElemsF n r2 []
          else if c = Char.ofNat 123 then
            match skipWsL rest with
            | d :: r2 =>
                if d = Char.ofNat 125 then .ok (.obj [], r2)
                else parseMembersF n (d :: r2) []
            | [] => .error "SyntaxError: Unexpected end of JSON input"
          else if c = 't' then
            match litMatches ['t', 'r', 'u', 'e'] (c :: rest) with
            | some r2 => .ok (.bool true, r2)
            | none => .error "SyntaxError: Unexpected token in JSON"
          else if c = 'f' then
            match litMatches ['f', 'a', 'l', 's', 'e'] (c :: rest) with
            | some r2 => .ok (.bool false, r2)
            | none => .error "SyntaxError: Unexpected token in JSON"
          else if c = 'n' then
            match litMatches ['n', 'u', 'l', 'l'] (c :: rest) with
            | some r2 => .ok (.null, r2)
            | none => .error "SyntaxError: Unexpected token in JSON"
          else if c = '-' || isDigitCh c then parseNumberL (c :: rest)
          else .error "SyntaxError: Unexpected token in JSON"

/-- Fuel-bounded parse of the elements of a non-empty JSON array. -/
def parseElemsF : Nat → List Char → List JsVal → Except String (JsVal × List Char)
  | 0, _, _ => .error "SyntaxError: JSON nesting too deep"
  | n + 1, l, acc =>
      match parseValueF n l with
      | .error m => .error m
      | .ok (v, rest) =>
          match skipWsL rest with
          | ',' :: r2 => parseElemsF n r2 (acc ++ [v])
          | ']' :: r2 => .ok (.arr (acc ++ [v]), r2)
          | _ => .error "SyntaxError: Expected comma or closing bracket in JSON"

/-- Fuel-bounded parse of the members of a non-empty JSON object. -/
def parseMembersF : Nat → List Char → List (String × JsVal) →
    Except String (JsVal × List Char)
  | 0, _, _ => .error "SyntaxError: JSON nesting too deep"
  | n + 1, l, acc =>
      match skipWsL l with
      | '"' :: r1 =>
          match parseStringBody r1 with
          | .error m => .error m
          | .ok (key, r2) =>
              match skipWsL r2 with
              | ':' :: r3 =>
                  match parseValueF n r3 with
                  | .error m => .error m
                  | .ok (v, r4) =>
                      match skipWsL r4 with
                      | ',' :: r5 => parseMembersF n r5 (acc ++ [(String.mk key, v)])
                      | d :: r5 =>
                          if d = Char.ofNat 125 then .ok (.obj (acc ++ [(String.mk key, v)]), r5)
                          else .error "SyntaxError: Expected comma or closing brace in JSON"
                      | [] => .error "SyntaxError: Unexpected end of JSON input"
              | _ => .error "SyntaxError: Expected colon in JSON"
      | _ => .error "SyntaxError: Expected string key in JSON"

end

/-- Model of `JSON.parse`: parse one value and require only trailing
whitespace after it. -/
def jsonParse (s : String) : Except String JsVal :=
  match parseValueF (s.length + 2) s.data with
  | .error m => .error m
  | .ok (v, rest) =>
      match skipWsL rest with
      | [] => .ok v
      | _ => .error "SyntaxError: Unexpected non-whitespace character after JSON data"

/-- A normalized completion result (llmProvider.ts `LLMResponse`). `usage`
holds the provider-specific key list (`none` models an absent `usage`
property, as for Gemini); individual token counts may be `undefined`. -/
structure LLMResponse where
  content : JsVal
  model : String
  provider : LLMProvider
  usage : Option (List (String × JsVal))

/-- `UniversalLLMProvider.extractResponseContent`: one branch per provider,
reading the provider-specific field path out of the decoded response body.
Property reads on nullish intermediate values throw (TypeError); reads of
absent leaf fields on existing objects yield `undefined`. -/
def extractResponseContent (st : UniversalLLMProviderState) (data : JsVal) :
    Except String LLMResponse :=
  match st.provider with
  | .openai => do
      let choices ← jsGet data "choices"
      let c0 ← jsIndex choices 0
      let msg ← jsGet c0 "message"
      let content ← jsGet msg "content"
      let usage ← jsGet data "usage"
      pure { content := content, model := st.model, provider := st.provider
             usage := some [("promptTokens", jsOptGet usage "prompt_tokens"),
                            ("completionTokens", jsOptGet usage "completion_tokens"),
                            ("totalTokens", jsOptGet usage "total_tokens")] }
  | .deepseek => do
      let choices ← jsGet data "choices"
      let c0 ← jsIndex choices 0
      let msg ← jsGet c0 "message"
      let content ← jsGet msg "content"
      let usage ← jsGet data "usage"
      pure { content := content, model := st.model, provider := st.provider
             usage := some [("promptTokens", jsOptGet usage "prompt_tokens"),
                            ("completionTokens", jsOptGet usage "completion_tokens"),
                            ("totalTokens", jsOptGet usage "total_tokens")] }
  | .qwen => do
      let outv ← jsGet data "output"
      let content ← jsGet outv "text"
      let usage ← jsGet data "usage"
      pure { content := content, model := st.model, provider := st.provider
             usage := some [("totalTokens", jsOptGet usage "total_tokens")] }
  | .anthropic => do
      let carr ← jsGet data "content"
      let c0 ← jsIndex carr 0
      let content ← jsGet c0 "text"
      let usage ← jsGet data "usage"
      pure { content := content, model := st.model, provider := st.provider
             usage := some [("promptTokens", jsOptGet usage "input_tokens"),
                            ("completionTokens", jsOptGet usage "output_tokens")] }
  | .gemini => do
      let cands ← jsGet data "candidates"
      let c0 ← jsIndex cands 0
      let contv ← jsGet c0 "content"
      let parts ← jsGet contv "parts"
      let p0 ← jsIndex parts 0
      let content ← jsGet p0 "text"
      pure { content := content, model := st.model, provider := st.provider, usage := none }
  | .mistral => do
      let choices ← jsGet data "choices"
      let c0 ← jsIndex choices 0
      let msg ← jsGet c0 "message"
      let content ← jsGet msg "content"
      let usage ← jsGet data "usage"
      pure { content := content, model := st.model, provider := st.provider
             usage := some [("promptTokens", jsOptGet usage "prompt_tokens"),
                            ("completionTokens", jsOptGet usage "completion_tokens"),
                            ("totalTokens", jsOptGet usage "total_tokens")] }

/-- Extended configuration for third-party providers (llmSchema.ts has its
own `LLMConfig`; renamed here to avoid the source's name collision with
llmProvider.ts). -/
structure SchemaLLMConfig where
  provider : String
  apiKey : String
  baseURL : Option String := none
  model : String
  temperature : Option Rat := none
  maxTokens : Option Rat := none
  timeout : Option Rat := none
  headers : List (String × String) := []
  topP : Option Rat := none

/-- `PROVIDER_CONFIGS` from llmSchema.ts: provider name, base URL and
default model (the static per-provider headers carry no observable effect
in any claim and are omitted). -/
def PROVIDER_CONFIGS : List (String × String × String) :=
  [("deepseek", "https://api.deepseek.com/v1", "deepseek-chat"),
   ("qwen", "https://dashscope.aliyuncs.com/compatible-mode/v1", "qwen-turbo"),
   ("openai", "https://api.openai.com/v1", "gpt-3.5-turbo")]

/-- Base URL resolution in `ThirdPartyLanguageModel.complete`:
`this.config.baseURL || providerConfig?.baseURL`. -/
def tpResolveBaseURL (cfg : SchemaLLMConfig) : Option String :=
  jsOrOptStr cfg.baseURL ((PROVIDER_CONFIGS.lookup cfg.provider).map (fun p => p.1))

/-- The request body built by `ThirdPartyLanguageModel.complete`: the
generation parameters are resolved with the JS `||` operator, so an
explicit `0` is replaced by the default (`temperature` 0.7,
`max_tokens` 2000). -/
def tpRequestBody (cfg : SchemaLLMConfig) (prompt : String) : JsVal :=
  .obj [("model", jsOr (.str cfg.model)
          (match (PROVIDER_CONFIGS.lookup cfg.provider).map (fun p => p.2) with
           | some d => .str d
           | none => .undefined)),
        ("messages", .arr [.obj [("role", .str "user"), ("content", .str prompt)]]),
        ("temperature", .num (jsOrRat cfg.temperature 0.7)),
        ("max_tokens", .num (jsOrRat cfg.maxTokens 2000))]

/-- The response read in `ThirdPartyLanguageModel.complete`:
`data.choices[0]?.message?.content || ''` — a missing path past
`choices[0]` is silently replaced by the empty string. -/
def tpExtractContent (data : JsVal) : Except String JsVal := do
  let choices ← jsGet data "choices"
  let c0 ← jsIndex choices 0
  pure (jsOr (jsOptGet (jsOptGet c0 "message") "content") (.str ""))

/-- `ThirdPartyLanguageModel.complete`, as a function of the response the
endpoint produces for the request built from `tpRequestBody`: an
unresolvable base URL throws before the fetch; a non-2xx response and a
TypeError during extraction are caught and rethrown wrapped in
`LLM request failed: ...`. -/
def tpComplete (cfg : SchemaLLMConfig) (r : HttpResponse) : Except String JsVal :=
  match tpResolveBaseURL cfg with
  | none => .error ("Unsupported provider: " ++ cfg.provider)
  | some _ =>
      if r.respOk = false then
        .error ("LLM request failed: HTTP " ++ toString r.status ++ ": " ++ r.statusText)
      else
        match tpExtractContent r.body with
        | .error e => .error ("LLM request failed: " ++ e)
        | .ok v => .ok v

/-- The tagged translation outcome (llmSchema.ts translator result). -/
structure TranslationResult where
  success : Bool
  data : Option JsVal
  message : Option String

/-- `createJsonTranslator(...).translate` from llmSchema.ts: the entire
body — including the awaited `model.complete(prompt)` — sits inside one
try/catch, so any thrown error (transport included) is converted into
`success: false`; a successful parse is returned as `data` without any
schema validation. -/
def translatorTranslate (completed : Except String String) : TranslationResult :=
  match completed with
  | .error e => { success := false, data := none, message := some e }
  | .ok response =>
      match jsonParse response with
      | .error e => { success := false, data := none, message := some e }
      | .ok d => { success := true, data := some d, message := none }

/-- JS string coercion applied when a non-string completion value reaches
`JSON.parse` (only the string case is exercised by any claim). -/
def jsToStringCoerce : JsVal → String
  | .str s => s
  | .undefined => "undefined"
  | .null => "null"
  | .bool true => "true"
  | .bool false => "false"
  | .num q => toString q
  | .arr xs => String.intercalate "," (xs.map (fun _ => ""))
  | .obj _ => "[object Object]"

/-- The translator of `ChatResponseFormatter` driven by
`ThirdPartyLanguageModel.complete`. -/
def translateWithTp (cfg : SchemaLLMConfig) (r : HttpResponse) : TranslationResult :=
  translatorTranslate ((tpComplete cfg r).map jsToStringCoerce)

/-- An OpenAI provider instance built from a minimal configuration, used by
concrete counterexamples. -/
def stOpenaiTest : UniversalLLMProviderState :=
  mkUniversalLLMProvider .openai "gpt-4o" { apiKey := "k" }

/-- C3 is false on the code: when the leaf of the expected field path is
absent on an existing parent object, `extractResponseContent` returns a
success whose `content` is `undefined` (here: a response whose
`choices[0].message` exists but has no `content`), and
`ThirdPartyLanguageModel.complete` fabricates an empty-string success
(here: a response whose `choices[0]` exists but has no `message`) —
neither is an extraction failure. -/
theorem claim_C3_counterexample :
    (extractResponseContent stOpenaiTest
        (.obj [("choices", .arr [.obj [("message", .obj [])]])]) =
      .ok { content := .undefined, model := "gpt-4o", provider := .openai
            usage := some [("promptTokens", .undefined), ("completionTokens", .undefined),
                           ("totalTokens", .undefined)] }) ∧
    tpExtractContent (.obj [("choices", .arr [.obj []])]) = .ok (.str "") :=
  ⟨rfl, rfl⟩

/-- C3 amended: for a 2xx response missing the expected field path,
extraction throws a TypeError only when an intermediate container is
nullish (OpenAI shape: `choices` absent); when only the leaf is absent on
an existing parent, `extractResponseContent` returns a success with
`undefined` content, and `ThirdPartyLanguageModel.complete` returns an
empty-string success — extraction failures are therefore not guaranteed
for absent field paths. -/
theorem claim_C3_amended :
    (∀ (st : UniversalLLMProviderState) (fs : List (String × JsVal)),
        st.provider = .openai → fs.lookup "choices" = none →
        extractResponseContent st (.obj fs) =
          .error "TypeError: Cannot read properties of undefined (reading index)") ∧
    (∀ (st : UniversalLLMProviderState) (mfs : List (String × JsVal)),
        st.provider = .openai → mfs.lookup "content" = none →
        extractResponseContent st
            (.obj [("choices", .arr [.obj [("message", .obj mfs)]])]) =
          .ok { content := .undefined, model := st.model, provider := .openai
                usage := some [("promptTokens", .undefined), ("completionTokens", .undefined),
                               ("totalTokens", .undefined)] }) ∧
    (∀ (cfs : List (String × JsVal)),
        cfs.lookup "message" = none →
        tpExtractContent (.obj [("choices", .arr [.obj cfs])]) = .ok (.str "")) := by
  refine ⟨?_, ?_, ?_⟩
  · intro st fs hp hl
    simp [extractResponseContent, hp, jsGet, jsIndex, hl, Bind.bind, Except.bind]
  · intro st mfs hp hl
    simp [extractResponseContent, hp, jsGet, jsIndex, jsOptGet, hl, List.lookup,
      Bind.bind, Except.bind, Pure.pure, Except.pure]
  · intro cfs hl
    simp [tpExtractContent, jsGet, jsIndex, jsOptGet, jsOr, JsVal.truthy, hl,
      Bind.bind, Except.bind, Functor.map, Except.map, Pure.pure, Except.pure]

/-- Witness for the amended C3 at concrete inputs. -/
theorem claim_C3_amended_witness :
    (extractResponseContent stOpenaiTest (.obj []) =
      .error "TypeError: Cannot read properties of undefined (reading index)") ∧
    (extractResponseContent stOpenaiTest
        (.obj [("choices", .arr [.obj [("message", .obj [("role", .str "assistant")])]])]) =
      .ok { content := .undefined, model := "gpt-4o", provider := .openai
            usage := some [("promptTokens", .undefined), ("completionTokens", .undefined),
                           ("totalTokens", .undefined)] }) ∧
    tpExtractContent (.obj [("choices", .arr [.obj [("index", .num 0)]])]) = .ok (.str "") := by
  have h := claim_C3_amended
  exact ⟨h.1 stOpenaiTest [] rfl rfl,
         h.2.1 stOpenaiTest [("role", .str "assistant")] rfl rfl,
         h.2.2 [("index", .num 0)] rfl⟩

/-- Configuration used by the transport-failure counterexamples. -/
def tpTestConfig : SchemaLLMConfig :=
  { provider := "openai", apiKey := "k", model := "gpt-3.5-turbo" }

/-- C4 is false on the code: a non-2xx HTTP failure thrown below the
translator boundary is caught by `translate`'s catch-all and returned as
`success: false` instead of propagating as a thrown error. -/
theorem claim_C4_counterexample :
    translateWithTp tpTestConfig { status := 404, statusText := "Not Found", body := .null } =
      { success := false, data := none
        message := some "LLM request failed: HTTP 404: Not Found" } := rfl

/-- C4 amended: `translate` never throws — every failure below the
boundary (transport errors included) and every JSON-parse failure is
converted into the returned `success: false` value carrying the underlying
message, so callers cannot distinguish transport breakage from shape
noncompliance at this boundary. -/
theorem claim_C4_amended :
    (∀ e, translatorTranslate (.error e) =
        { success := false, data := none, message := some e }) ∧
    (∀ s e, jsonParse s = .error e →
        translatorTranslate (.ok s) =
          { success := false, data := none, message := some e }) ∧
    (∀ (cfg : SchemaLLMConfig) (r : HttpResponse) (b : String),
        tpResolveBaseURL cfg = some b → r.respOk = false →
        translateWithTp cfg r =
          { success := false, data := none
            message := some ("LLM request failed: HTTP " ++ toString r.status ++ ": " ++
              r.statusText) }) := by
  refine ⟨fun e => rfl, ?_, ?_⟩
  · intro s e h
    simp [translatorTranslate, h]
  · intro cfg r b hb hok
    simp [translateWithTp, tpComplete, hb, hok, translatorTranslate, Except.map]

/-- Witness for the amended C4 at concrete inputs. -/
theorem claim_C4_amended_witness :
    translatorTranslate (.error "boom") =
      { success := false, data := none, message := some "boom" } ∧
    translatorTranslate (.ok "not json") =
      { success := false, data := none
        message := some "SyntaxError: Unexpected token in JSON" } ∧
    translateWithTp tpTestConfig
        { status := 500, statusText := "Internal Server Error", body := .null } =
      { success := false, data := none
        message := some ("LLM request failed: HTTP " ++ toString 500 ++ ": " ++
          "Internal Server Error") } := by
  have h := claim_C4_amended
  exact ⟨h.1 "boom",
         h.2.1 "not json" "SyntaxError: Unexpected token in JSON" rfl,
         h.2.2 tpTestConfig { status := 500, statusText := "Internal Server Error", body := .null }
           "https://api.openai.com/v1" rfl rfl⟩

/-- Modelled from the spec: structural validation of the caller-declared
`PromptCellChatResponse` target shape — required `format` (one of
plaintext/markdown) and `response` (text), optional `tags` (a list of at
most 3 strings). The source's translator never runs such a check; this
definition exists only to compare its behavior with the spec. -/
def satisfiesPromptCellShape (v : JsVal) : Bool :=
  match v with
  | .obj fs =>
      (match fs.lookup "format" with
       | some (.str f) => f = "plaintext" || f = "markdown"
       | _ => false) &&
      (match fs.lookup "response" with
       | some (.str _) => true
       | _ => false) &&
      (match fs.lookup "tags" with
       | none => true
       | some (.arr ts) =>
           decide (ts.length ≤ 3) &&
             ts.all (fun t => match t with | .str _ => true | _ => false)
       | some _ => false)
  | _ => false

/-- C5 is false on the code: the model output `1` parses as JSON, has no
required field of the target shape at all, yet `translate` returns it as a
success with `data` the raw parsed value — missing required fields are not
a validation failure and no shape is enforced. -/
theorem claim_C5_counterexample :
    translatorTranslate (.ok "1") =
      { success := true, data := some (.num 1), message := none } ∧
    satisfiesPromptCellShape (.num 1) = false :=
  ⟨rfl, rfl⟩

/-- C5 amended: `translate` performs no shape validation — it succeeds
exactly when the raw text parses as JSON, returning the parsed value
unchanged (no excess-field dropping, no defaults, no required-field
checks); only a JSON syntax error is a failure. -/
theorem claim_C5_amended :
    (∀ s v, jsonParse s = .ok v →
        translatorTranslate (.ok s) =
          { success := true, data := some v, message := none }) ∧
    (∀ s e, jsonParse s = .error e →
        translatorTranslate (.ok s) =
          { success := false, data := none, message := some e }) := by
  constructor
  · intro s v h
    simp [translatorTranslate, h]
  · intro s e h
    simp [translatorTranslate, h]

/-- Witness for the amended C5 at concrete inputs. -/
theorem claim_C5_amended_witness :
    translatorTranslate (.ok "[1]") =
      { success := true, data := some (.arr [.num 1]), message := none } ∧
    translatorTranslate (.ok "nope") =
      { success := false, data := none
        message := some "SyntaxError: Unexpected token in JSON" } := by
  have h := claim_C5_amended
  exact ⟨h.1 "[1]" (.arr [.num 1]) rfl,
         h.2 "nope" "SyntaxError: Unexpected token in JSON" rfl⟩

/-- One entry of the `OrgConfig` table (the module providing
`createModel`); the static `Content-Type` headers of some entries carry no
observable effect in any claim and are omitted. -/
structure OrgCfgEntry where
  endpoint : String
  defaultModel : String

/-- The `OrgConfig` constant table. -/
def OrgConfig : List (String × OrgCfgEntry) :=
  [("deepseek", { endpoint := "https://api.deepseek.com/v1/chat/completions"
                  defaultModel := "deepseek-chat" }),
   ("qwen", { endpoint := "https://dashscope.aliyuncs.com/compatible-mode/v1//chat/completions"
              defaultModel := "qwen-turbo" }),
   ("openai", { endpoint := "https://api.openai.com/v1/chat/completions"
                defaultModel := "gpt-3.5-turbo" }),
   ("anthropic", { endpoint := "https://api.anthropic.com/v1/chat/completions"
                   defaultModel := "anthropic-chat" }),
   ("gemini", { endpoint := "https://gemini.chat/api/v1/chat/completions"
                defaultModel := "gemini-chat" })]

/-- The snapshot of the `prompter` user settings read by
`executeCellPrompt`; the API-key and endpoint getters are keyed by the
resolved org name (`get(org + "ApiKey")`, `get(org + "Endpoint")`). -/
structure PrompterSettings where
  llmProvider : Option String
  llmModel : Option String
  apiKeyFor : String → Option String
  endpointFor : String → Option String
  temperature : Option Rat
  maxTokens : Option Rat

/-- The model value returned by `createModel`: since `registerModelFactory`
has no caller anywhere in the repository, the factory table is always
empty and `createModel` always returns the general language model, for
known and unknown orgs alike — it cannot fail. -/
structure GeneralModelDescriptor where
  apiKey : String
  modelName : String
  endPoint : Option String
  org : String
  defaultTemperature : Rat
  defaultMaxTokens : Rat

/-- `createModel` from the model module: always the general-model fallback
(see `GeneralModelDescriptor`). -/
def createModel (org model : String) (endPoint : Option String) (apiKey : String)
    (t mt : Rat) : GeneralModelDescriptor :=
  { apiKey := apiKey, modelName := model, endPoint := endPoint, org := org
    defaultTemperature := t, defaultMaxTokens := mt }

/-- The configuration-resolution prefix of `executeCellPrompt` (settings
reads, `||` fallbacks, `OrgConfig[org] || \x7b\x7d`, `createModel`). This
phase contains no throwing operation. -/
structure CellPromptSetup where
  org : String
  modelName : String
  apiKey : String
  endpoint : Option String
  temperature : Rat
  maxTokens : Rat
  model : GeneralModelDescriptor

/-- Resolution of the configuration prefix of `executeCellPrompt`. -/
def resolveCellPromptSetup (s : PrompterSettings) : CellPromptSetup :=
  let org := jsOrStr s.llmProvider "openai"
  let modelName := jsOrStr s.llmModel "gpt-3.5-turbo"
  let apiKey := jsOrStr (s.apiKeyFor org) ""
  let endpoint := jsOrOptStr (s.endpointFor org)
    ((OrgConfig.lookup org).map (fun e => e.endpoint))
  let temperature := jsOrRat s.temperature 0.7
  let maxTokens := jsOrRat s.maxTokens 1000
  { org := org, modelName := modelName, apiKey := apiKey, endpoint := endpoint
    temperature := temperature, maxTokens := maxTokens
    model := createModel org modelName endpoint apiKey temperature maxTokens }

/-- The metadata wrapper returned by `executeCellPrompt` (run.ts
`WrapChatResponse`); times are epoch milliseconds. -/
structure WrapChatResponse where
  data : JsVal
  org : String
  model : String
  startTime : Int
  endTime : Int
  duration : Int
  temperature : Rat
  maxTokens : Rat

/-- `executeCellPrompt`, as a function of the translation result the
typechat translator produced for the prompt (the typechat library is
external to the repository): on `success: false` it throws
`Failed to translate prompt: ...`, returning nothing; only on success does
it build the metadata wrapper. -/
def executeCellPrompt (s : PrompterSettings) (tr : TranslationResult)
    (startTime endTime : Int) : Except String WrapChatResponse :=
  let setup := resolveCellPromptSetup s
  if tr.success = false then
    .error ("Failed to translate prompt: " ++ (tr.message.getD "undefined"))
  else
    .ok { data := tr.data.getD .undefined, org := setup.org, model := setup.modelName
          startTime := startTime, endTime := endTime, duration := endTime - startTime
          temperature := setup.temperature, maxTokens := setup.maxTokens }

/-- A fully populated settings snapshot used by concrete counterexamples. -/
def defaultTestSettings : PrompterSettings :=
  { llmProvider := some "openai", llmModel := some "gpt-4"
    apiKeyFor := fun _ => some "k", endpointFor := fun _ => none
    temperature := some (1/2), maxTokens := some 800 }

/-- C6 is false on the code: when the translation fails,
`executeCellPrompt` throws `Failed to translate prompt: ...` and the
caller receives no metadata wrapper at all — the duration telemetry is
lost on the failure path. -/
theorem claim_C6_counterexample :
    executeCellPrompt defaultTestSettings
        { success := false, data := none, message := some "parse error" } 0 5 =
      .error "Failed to translate prompt: parse error" := rfl

/-- C6 amended: the metadata wrapper (org, model, start/end timestamps,
duration, resolved temperature and maxTokens) is returned only when the
translation succeeds; on translation failure `executeCellPrompt` throws
`Failed to translate prompt: ...` and no wrapper reaches the caller. -/
theorem claim_C6_amended (s : PrompterSettings) (tr : TranslationResult)
    (startTime endTime : Int) :
    (tr.success = true →
      executeCellPrompt s tr startTime endTime =
        .ok { data := tr.data.getD .undefined
              org := (resolveCellPromptSetup s).org
              model := (resolveCellPromptSetup s).modelName
              startTime := startTime, endTime := endTime
              duration := endTime - startTime
              temperature := (resolveCellPromptSetup s).temperature
              maxTokens := (resolveCellPromptSetup s).maxTokens }) ∧
    (tr.success = false →
      executeCellPrompt s tr startTime endTime =
        .error ("Failed to translate prompt: " ++ (tr.message.getD "undefined"))) := by
  constructor
  · intro h
    simp [executeCellPrompt, h]
  · intro h
    simp [executeCellPrompt, h]

/-- Witness for the amended C6 at concrete inputs. -/
theorem claim_C6_amended_witness :
    executeCellPrompt defaultTestSettings
        { success := true, data := some (.str "ok"), message := none } 10 25 =
      .ok { data := .str "ok"
            org := (resolveCellPromptSetup defaultTestSettings).org
            model := (resolveCellPromptSetup defaultTestSettings).modelName
            startTime := 10, endTime := 25, duration := 15
            temperature := (resolveCellPromptSetup defaultTestSettings).temperature
            maxTokens := (resolveCellPromptSetup defaultTestSettings).maxTokens } ∧
    executeCellPrompt defaultTestSettings
        { success := false, data := none, message := none } 10 25 =
      .error ("Failed to translate prompt: " ++ "undefined") := by
  have h1 := (claim_C6_amended defaultTestSettings
    { success := true, data := some (.str "ok"), message := none } 10 25).1 rfl
  have h2 := (claim_C6_amended defaultTestSettings
    { success := false, data := none, message := none } 10 25).2 rfl
  exact ⟨h1, h2⟩

/-- ASCII lowercasing of one character (JS `toLowerCase`, restricted to the
ASCII range all provider ids live in). -/
def lowerChar (c : Char) : Char :=
  if 'A' ≤ c ∧ c ≤ 'Z' then Char.ofNat (c.toNat + 32) else c

/-- ASCII lowercasing of a string (JS `toLowerCase`). -/
def lowerString (s : String) : String := String.mk (s.data.map lowerChar)

/-- The lowercased-name membership test of `UniversalLLMProvider.fromConfig`
(`Object.values(LLMProvider).includes(providerName.toLowerCase())`). -/
def providerOfString (s : String) : Option LLMProvider :=
  match lowerString s with
  | "openai" => some .openai
  | "deepseek" => some .deepseek
  | "qwen" => some .qwen
  | "anthropic" => some .anthropic
  | "gemini" => some .gemini
  | "mistral" => some .mistral
  | _ => none

/-- `UniversalLLMProvider.fromConfig`: throws `Unsupported provider` for an
id outside the known set, otherwise constructs the provider instance. -/
def UniversalLLMProvider.fromConfig (providerName model : String) (config : LLMConfig) :
    Except String UniversalLLMProviderState :=
  match providerOfString providerName with
  | none => .error ("Unsupported provider: " ++ providerName)
  | some p => .ok (mkUniversalLLMProvider p model config)

/-- Settings naming a provider outside the statically known set. -/
def unknownProviderSettings : PrompterSettings :=
  { llmProvider := some "unknown-provider", llmModel := some "gpt-4"
    apiKeyFor := fun _ => some "k", endpointFor := fun _ => none
    temperature := none, maxTokens := none }

/-- C7 is false on the code for the `executeCellPrompt` path: the id
`unknown-provider` is outside the known set, yet configuration resolution
raises nothing — `OrgConfig[org] || \x7b\x7d` falls back to an empty
config (endpoint `undefined`), `createModel` silently returns the general
language model, and the call proceeds; no synchronous
`UnsupportedProviderError` occurs before the network call. -/
theorem claim_C7_counterexample :
    providerOfString "unknown-provider" = none ∧
    (resolveCellPromptSetup unknownProviderSettings).org = "unknown-provider" ∧
    (OrgConfig.lookup "unknown-provider") = none ∧
    (resolveCellPromptSetup unknownProviderSettings).endpoint = none ∧
    (resolveCellPromptSetup unknownProviderSettings).model =
      { apiKey := "k", modelName := "gpt-4", endPoint := none, org := "unknown-provider"
        defaultTemperature := 0.7, defaultMaxTokens := 1000 } ∧
    executeCellPrompt unknownProviderSettings
        { success := true, data := some (.str "x"), message := none } 0 1 =
      .ok { data := .str "x", org := "unknown-provider", model := "gpt-4"
            startTime := 0, endTime := 1, duration := 1
            temperature := 0.7, maxTokens := 1000 } :=
  ⟨by decide, rfl, rfl, rfl, rfl, rfl⟩

/-- C7 amended: `UniversalLLMProvider.fromConfig` is a hard synchronous
failure on unknown ids and never defaults to another provider; the
`executeCellPrompt` path, however, performs no membership check — an
unknown (non-empty) `llmProvider` value is kept as the org, its org config
falls back to the empty object (endpoint `undefined`), and the general
language model is constructed without failure, deferring any error to the
network call itself. -/
theorem claim_C7_amended :
    (∀ (name model : String) (cfg : LLMConfig),
        providerOfString name = none →
        UniversalLLMProvider.fromConfig name model cfg =
          .error ("Unsupported provider: " ++ name)) ∧
    (∀ (name model : String) (cfg : LLMConfig) (p : LLMProvider),
        providerOfString name = some p →
        UniversalLLMProvider.fromConfig name model cfg =
          .ok (mkUniversalLLMProvider p model cfg)) ∧
    (∀ (s : PrompterSettings) (org : String),
        s.llmProvider = some org → org ≠ "" →
        (resolveCellPromptSetup s).org = org ∧
        (resolveCellPromptSetup s).model =
          createModel org (resolveCellPromptSetup s).modelName
            (resolveCellPromptSetup s).endpoint
            (resolveCellPromptSetup s).apiKey
            (resolveCellPromptSetup s).temperature
            (resolveCellPromptSetup s).maxTokens) := by
  refine ⟨?_, ?_, ?_⟩
  · intro name model cfg h
    simp [UniversalLLMProvider.fromConfig, h]
  · intro name model cfg p h
    simp [UniversalLLMProvider.fromConfig, h]
  · intro s org hs hne
    constructor
    · simp [resolveCellPromptSetup, hs, jsOrStr, hne]
    · simp [resolveCellPromptSetup, hs, jsOrStr, hne]

/-- Witness for the amended C7 at concrete inputs. -/
theorem claim_C7_amended_witness :
    UniversalLLMProvider.fromConfig "unknown-provider" "m" { apiKey := "k" } =
      .error ("Unsupported provider: " ++ "unknown-provider") ∧
    UniversalLLMProvider.fromConfig "OpenAI" "m" { apiKey := "k" } =
      .ok (mkUniversalLLMProvider .openai "m" { apiKey := "k" }) ∧
    ((resolveCellPromptSetup unknownProviderSettings).org = "unknown-provider" ∧
      (resolveCellPromptSetup unknownProviderSettings).model =
        createModel "unknown-provider"
          (resolveCellPromptSetup unknownProviderSettings).modelName
          (resolveCellPromptSetup unknownProviderSettings).endpoint
          (resolveCellPromptSetup unknownProviderSettings).apiKey
          (resolveCellPromptSetup unknownProviderSettings).temperature
          (resolveCellPromptSetup unknownProviderSettings).maxTokens) := by
  have h := claim_C7_amended
  exact ⟨h.1 "unknown-provider" "m" { apiKey := "k" } (by decide),
         h.2.1 "OpenAI" "m" { apiKey := "k" } .openai (by decide),
         h.2.2 unknownProviderSettings "unknown-provider" rfl (by decide)⟩

/-- C9: the `||`-based parameter resolution in
`ThirdPartyLanguageModel.complete` and in `executeCellPrompt` replaces an
explicitly configured `0` with the default (temperature 0 is sent as 0.7,
maxTokens 0 becomes 2000 resp. 1000), whereas the
`UniversalLLMProvider` constructor's object spread preserves an explicitly
supplied 0. -/
theorem claim_C9_zero_parameter_defaults (cfg : SchemaLLMConfig)
    (s : PrompterSettings) (c : LLMConfig) (prompt : String) :
    (cfg.temperature = some 0 →
      jsOptGet (tpRequestBody cfg prompt) "temperature" = .num 0.7) ∧
    (cfg.maxTokens = some 0 →
      jsOptGet (tpRequestBody cfg prompt) "max_tokens" = .num 2000) ∧
    (s.temperature = some 0 → (resolveCellPromptSetup s).temperature = 0.7) ∧
    (s.maxTokens = some 0 → (resolveCellPromptSetup s).maxTokens = 1000) ∧
    (∀ (p : LLMProvider) (m : String), c.temperature = some 0 →
      (mkUniversalLLMProvider p m c).temperature = 0) ∧
    (∀ (p : LLMProvider) (m : String), c.maxTokens = some 0 →
      (mkUniversalLLMProvider p m c).maxTokens = 0) := by
  refine ⟨?_, ?_, ?_, ?_, ?_, ?_⟩
  · intro h
    simp [tpRequestBody, jsOptGet, jsOrRat, h, List.lookup]
  · intro h
    simp [tpRequestBody, jsOptGet, jsOrRat, h, List.lookup]
  · intro h
    simp [resolveCellPromptSetup, jsOrRat, h]
  · intro h
    simp [resolveCellPromptSetup, jsOrRat, h]
  · intro p m h
    simp [mkUniversalLLMProvider, h]
  · intro p m h
    simp [mkUniversalLLMProvider, h]

/-- Witness for C9 at concrete inputs: temperature and maxTokens both
configured as 0 on each path. -/
theorem claim_C9_zero_parameter_defaults_witness :
    (jsOptGet (tpRequestBody
        { provider := "openai", apiKey := "k", model := "m"
          temperature := some 0, maxTokens := some 0 } "hi") "temperature" = .num 0.7) ∧
    (jsOptGet (tpRequestBody
        { provider := "openai", apiKey := "k", model := "m"
          temperature := some 0, maxTokens := some 0 } "hi") "max_tokens" = .num 2000) ∧
    ((resolveCellPromptSetup
        { llmProvider := some "openai", llmModel := some "m"
          apiKeyFor := fun _ => some "k", endpointFor := fun _ => none
          temperature := some 0, maxTokens := some 0 }).temperature = 0.7) ∧
    ((resolveCellPromptSetup
        { llmProvider := some "openai", llmModel := some "m"
          apiKeyFor := fun _ => some "k", endpointFor := fun _ => none
          temperature := some 0, maxTokens := some 0 }).maxTokens = 1000) ∧
    (mkUniversalLLMProvider .openai "m"
        { apiKey := "k", temperature := some 0, maxTokens := some 0 }).temperature = 0 ∧
    (mkUniversalLLMProvider .openai "m"
        { apiKey := "k", temperature := some 0, maxTokens := some 0 }).maxTokens = 0 := by
  have h := claim_C9_zero_parameter_defaults
    { provider := "openai", apiKey := "k", model := "m"
      temperature := some 0, maxTokens := some 0 }
    { llmProvider := some "openai", llmModel := some "m"
      apiKeyFor := fun _ => some "k", endpointFor := fun _ => none
      temperature := some 0, maxTokens := some 0 }
    { apiKey := "k", temperature := some 0, maxTokens := some 0 } "hi"
  exact ⟨h.1 rfl, h.2.1 rfl, h.2.2.1 rfl, h.2.2.2.1 rfl,
         h.2.2.2.2.1 .openai "m" rfl, h.2.2.2.2.2 .openai "m" rfl⟩

/-- The backtick character (written numerically). -/
def backtickChar : Char := Char.ofNat 96

/-- Whether a character matches the regex class `\s` (ASCII subset; the
source strings never carry non-ASCII whitespace). -/
def jsWsChar (c : Char) : Bool :=
  c = ' ' || c = '\t' || c = '\n' || c = '\r' || c = Char.ofNat 11 || c = Char.ofNat 12

/-- Split a character list at newline characters (the `.`-does-not-match
line structure used by the non-multiline patterns). -/
def splitOnNl : List Char → List (List Char)
  | [] => [[]]
  | c :: cs =>
      if c = '\n' then [] :: splitOnNl cs
      else
        match splitOnNl cs with
        | [] => [[c]]
        | ln :: rest => (c :: ln) :: rest

/-- Test a predicate at the start of the string and after every newline
(the `/m` flag's `^` positions). -/
def anyLineStartAux (p : List Char → Bool) : List Char → Bool
  | [] => false
  | c :: rest => (c = '\n' && p rest) || anyLineStartAux p rest

/-- Test a predicate at every multiline `^` position. -/
def anyLineStart (p : List Char → Bool) (l : List Char) : Bool :=
  p l || anyLineStartAux p l

/-- Match of the header pattern at one `^` position: one to six `#`
followed by a whitespace character. -/
def headerFrom (l : List Char) : Bool :=
  let hashes := l.takeWhile (fun c => c = '#')
  decide (1 ≤ hashes.length) && decide (hashes.length ≤ 6) &&
    (match l.drop hashes.length with
     | c :: _ => jsWsChar c
     | [] => false)

/-- The headers pattern over the whole string. -/
def hasHeaderPattern (l : List Char) : Bool := anyLineStart headerFrom l

/-- Drop everything up to and including the first occurrence of `**`. -/
def dropThroughStarStar : List Char → Option (List Char)
  | '*' :: '*' :: rest => some rest
  | _ :: rest => dropThroughStarStar rest
  | [] => none

/-- Match of the bold pattern within one line: two non-overlapping `**`. -/
def boldLine (ln : List Char) : Bool :=
  match dropThroughStarStar ln with
  | some r => (dropThroughStarStar r).isSome
  | none => false

/-- The bold pattern over the whole string. -/
def hasBoldPattern (l : List Char) : Bool := (splitOnNl l).any boldLine

/-- Match of the italic pattern within one line: at least two `*`. -/
def italicLine (ln : List Char) : Bool := decide (2 ≤ ln.count '*')

/-- The italic pattern over the whole string. -/
def hasItalicPattern (l : List Char) : Bool := (splitOnNl l).any italicLine

/-- Drop everything up to and including the first triple backtick. -/
def dropThroughTripleTick : List Char → Option (List Char)
  | a :: b :: c :: rest =>
      if a = backtickChar && b = backtickChar && c = backtickChar then some rest
      else dropThroughTripleTick (b :: c :: rest)
  | _ => none

/-- The code-block pattern over the whole string (the `[\s\S]*` in the
source regex crosses lines): two non-overlapping triple backticks. -/
def hasCodeBlockPattern (l : List Char) : Bool :=
  match dropThroughTripleTick l with
  | some r => (dropThroughTripleTick r).isSome
  | none => false

/-- Match of the inline-code pattern within one line: at least two
backticks. -/
def inlineCodeLine (ln : List Char) : Bool := decide (2 ≤ ln.count backtickChar)

/-- The inline-code pattern over the whole string. -/
def hasInlineCodePattern (l : List Char) : Bool := (splitOnNl l).any inlineCodeLine

/-- Match of the list pattern at one `^` position: optional whitespace,
then a bullet character, then a whitespace character. -/
def listFrom (l : List Char) : Bool :=
  match l.dropWhile jsWsChar with
  | b :: c :: _ => (b = '-' || b = '*' || b = '+') && jsWsChar c
  | _ => false

/-- The list pattern over the whole string. -/
def hasListPattern (l : List Char) : Bool := anyLineStart listFrom l

/-- Drop everything up to and including the first occurrence of a given
character. -/
def dropThroughChar (t : Char) : List Char → Option (List Char)
  | [] => none
  | c :: rest => if c = t then some rest else dropThroughChar t rest

/-- Drop everything up to and including the first occurrence of the
adjacent pair closing-bracket/opening-paren. -/
def dropThroughBracketParen : List Char → Option (List Char)
  | a :: b :: rest =>
      if a = ']' && b = '(' then some rest
      else dropThroughBracketParen (b :: rest)
  | _ => none

/-- Match of the link pattern within one line: `[`, later `](`, later `)`. -/
def linkLine (ln : List Char) : Bool :=
  match dropThroughChar '[' ln with
  | none => false
  | some r1 =>
      match dropThroughBracketParen r1 with
      | none => false
      | some r2 => r2.contains ')'

/-- The link pattern over the whole string. -/
def hasLinkPattern (l : List Char) : Bool := (splitOnNl l).any linkLine

/-- Display formats a chat response can carry. -/
inductive ContentFormat where
  | plaintext
  | markdown
deriving DecidableEq

/-- `ChatResponseFormatter.detectFormat`: markdown when any of the seven
patterns (headers, bold, italic, code blocks, inline code, lists, links)
matches, plaintext otherwise. -/
def detectFormat (content : String) : ContentFormat :=
  let l := content.data
  if hasHeaderPattern l || hasBoldPattern l || hasItalicPattern l ||
     hasCodeBlockPattern l || hasInlineCodePattern l || hasListPattern l ||
     hasLinkPattern l
  then .markdown else .plaintext

/-- The `ChatResponse` record of llmSchema.ts; absent optional properties
are modelled as `none`. -/
structure ChatResponse where
  format : ContentFormat
  tags : Option (List String)
  content : String
  success : Bool
  error : Option String
  usage : Option (List (String × JsVal))
  model : Option String
  provider : Option String

/-- `ChatResponseFormatter.formatResponse`, as a function of the optional
pre-supplied raw response and of the outcome of the awaited
`languageModel.complete(prompt)`. The whole TS body sits in one try/catch
whose catch returns a value, so the method is total at its boundary; its
only throwing operation is the awaited `complete`. -/
def formatResponse (cfg : SchemaLLMConfig) (rawResponse : Option String)
    (completed : Except String String) : ChatResponse :=
  match rawResponse with
  | some raw =>
      { format := detectFormat raw, tags := none, content := raw, success := true
        error := none, usage := none
        model := some cfg.model, provider := some cfg.provider }
  | none =>
      match completed with
      | .ok resp =>
          { format := detectFormat resp, tags := none, content := resp, success := true
            error := none, usage := none
            model := some cfg.model, provider := some cfg.provider }
      | .error e =>
          { format := .plaintext, tags := none, content := "", success := false
            error := some e, usage := none, model := none, provider := none }

/-- C10: `formatResponse` is total at its public boundary — it returns a
`ChatResponse` for every input; on an internal error it returns exactly
`format plaintext, content "", success false` carrying the error message;
the returned `success` is true exactly when no error occurred; and the
format is always plaintext or markdown. -/
theorem claim_C10_formatter_total (cfg : SchemaLLMConfig) (raw : Option String)
    (completed : Except String String) :
    (∀ e, raw = none → completed = .error e →
        formatResponse cfg raw completed =
          { format := .plaintext, tags := none, content := "", success := false
            error := some e, usage := none, model := none, provider := none }) ∧
    ((formatResponse cfg raw completed).success = true ↔
        (formatResponse cfg raw completed).error = none) ∧
    ((formatResponse cfg raw completed).format = .plaintext ∨
        (formatResponse cfg raw completed).format = .markdown) := by
  refine ⟨?_, ?_, ?_⟩
  · intro e hraw hc
    subst hraw
    subst hc
    rfl
  · cases raw with
    | some r => simp [formatResponse]
    | none =>
        cases completed with
        | ok s => simp [formatResponse]
        | error e => simp [formatResponse]
  · cases raw with
    | some r =>
        cases h : detectFormat r with
        | plaintext => left; simp [formatResponse, h]
        | markdown => right; simp [formatResponse, h]
    | none =>
        cases completed with
        | ok s =>
            cases h : detectFormat s with
            | plaintext => left; simp [formatResponse, h]
            | markdown => right; simp [formatResponse, h]
        | error e => left; rfl

/-- Witness for C10 at concrete inputs: a failing completion yields the
fixed failure record, and a markdown-looking success is detected. -/
theorem claim_C10_formatter_total_witness :
    formatResponse tpTestConfig none (.error "LLM request failed: HTTP 404: x") =
      { format := .plaintext, tags := none, content := "", success := false
        error := some "LLM request failed: HTTP 404: x", usage := none
        model := none, provider := none } ∧
    ((formatResponse tpTestConfig none (.ok "# Title")).success = true ↔
        (formatResponse tpTestConfig none (.ok "# Title")).error = none) ∧
    ((formatResponse tpTestConfig none (.ok "# Title")).format = .plaintext ∨
        (formatResponse tpTestConfig none (.ok "# Title")).format = .markdown) := by
  have h := claim_C10_formatter_total tpTestConfig none (.error "LLM request failed: HTTP 404: x")
  have h2 := claim_C10_formatter_total tpTestConfig none (.ok "# Title")
  exact ⟨h.1 "LLM request failed: HTTP 404: x" rfl rfl, h2.2.1, h2.2.2⟩
